import Mathlib

/-! RX-8025 real-time-clock driver.

A shallow embedding of `src/src/RX-8025RTC.h` and `src/src/RX-8025RTC.cpp`.

* `uint8_t` values are natural numbers below 256; where the C++ expression is
  computed in `int` and stored back into a `uint8_t` the truncation is written
  `% 256`.
* `int` values (only `getWeekday`) are integers with C++ truncating division
  and remainder (`Int.tdiv`, `Int.tmod`).
* A `bool` result paired with reference out-parameters becomes an `Option`.
* A local that the C++ declares without an initialiser (`uint8_t ctrl1;`,
  `uint8_t buf[3];`) is a parameter of the embedded function: its value at the
  point of declaration is whatever the caller's stack holds.
* The bus (`TwoWire`) and the device behind it are not part of the repository;
  they are simulated by a register file with an auto-incrementing pointer and
  a script that says which transactions fail.
-/

namespace RX8025RTC

/-! ## Register map and enumerations (`RX-8025RTC.h`) -/

/-- Seconds register, `REG_SEC = 0x00`. -/
def REG_SEC : Nat := 0x00
/-- Minutes register, `REG_MIN = 0x01`. -/
def REG_MIN : Nat := 0x01
/-- Hours register, `REG_HOUR = 0x02`. -/
def REG_HOUR : Nat := 0x02
/-- Weekday register, `REG_WEEK = 0x03`. -/
def REG_WEEK : Nat := 0x03
/-- Day register, `REG_DAY = 0x04`. -/
def REG_DAY : Nat := 0x04
/-- Month register, `REG_MONTH = 0x05`. -/
def REG_MONTH : Nat := 0x05
/-- Year register, `REG_YEAR = 0x06`. -/
def REG_YEAR : Nat := 0x06
/-- Digital adjust register, `REG_ADJ = 0x07`. -/
def REG_ADJ : Nat := 0x07
/-- Weekly alarm minute register, `REG_ALM_W_MIN = 0x08`. -/
def REG_ALM_W_MIN : Nat := 0x08
/-- Weekly alarm hour register, `REG_ALM_W_HOUR = 0x09`. -/
def REG_ALM_W_HOUR : Nat := 0x09
/-- Weekly alarm weekday-mask register, `REG_ALM_W_WEEK = 0x0A`. -/
def REG_ALM_W_WEEK : Nat := 0x0A
/-- Daily alarm minute register, `REG_ALM_D_MIN = 0x0B`. -/
def REG_ALM_D_MIN : Nat := 0x0B
/-- Daily alarm hour register, `REG_ALM_D_HOUR = 0x0C`. -/
def REG_ALM_D_HOUR : Nat := 0x0C
/-- Control register 1, `REG_CTRL1 = 0x0E`. -/
def REG_CTRL1 : Nat := 0x0E
/-- Control register 2, `REG_CTRL2 = 0x0F`. -/
def REG_CTRL2 : Nat := 0x0F
/-- Mode 1 digital offset register, `REG_EXT_ADJ = 0x10`. -/
def REG_EXT_ADJ : Nat := 0x10
/-- Mode 1 extension control 1, `REG_EXT_CTRL1 = 0x1E`. -/
def REG_EXT_CTRL1 : Nat := 0x1E
/-- Mode 1 extension control 2, `REG_EXT_CTRL2 = 0x1F`. -/
def REG_EXT_CTRL2 : Nat := 0x1F

/-- The `Weekday` enumeration: `W_SUN = 0 .. W_SAT = 6`. -/
inductive Weekday where
  | W_SUN | W_MON | W_TUE | W_WED | W_THU | W_FRI | W_SAT
  deriving DecidableEq, Repr

/-- The enumerator value of a `Weekday`. -/
def Weekday.toNat : Weekday → Nat
  | .W_SUN => 0 | .W_MON => 1 | .W_TUE => 2 | .W_WED => 3
  | .W_THU => 4 | .W_FRI => 5 | .W_SAT => 6

/-- Weekly alarm mask bit, `BIT_SUN = 0x01`. -/
def BIT_SUN : Nat := 0x01
/-- Weekly alarm mask bit, `BIT_MON = 0x02`. -/
def BIT_MON : Nat := 0x02
/-- Weekly alarm mask bit, `BIT_TUE = 0x04`. -/
def BIT_TUE : Nat := 0x04
/-- Weekly alarm mask bit, `BIT_WED = 0x08`. -/
def BIT_WED : Nat := 0x08
/-- Weekly alarm mask bit, `BIT_THU = 0x10`. -/
def BIT_THU : Nat := 0x10
/-- Weekly alarm mask bit, `BIT_FRI = 0x20`. -/
def BIT_FRI : Nat := 0x20
/-- Weekly alarm mask bit, `BIT_SAT = 0x40`. -/
def BIT_SAT : Nat := 0x40
/-- Weekly alarm mask of all seven days, `BIT_ALL = 0x7F`, the default
argument of `setAlarmW`. -/
def BIT_ALL : Nat := 0x7F

/-- The `CyclePeriod` enumeration (CT2, CT1, CT0). -/
inductive CyclePeriod where
  | CYCLE_OFF | CYCLE_FIXED_L | CYCLE_2HZ_P | CYCLE_1HZ_P
  | CYCLE_1S_L | CYCLE_1MIN_L | CYCLE_1H_L | CYCLE_1MONTH_L
  deriving DecidableEq, Repr

/-- The enumerator value of a `CyclePeriod`: `CYCLE_OFF = 0x00 ..
CYCLE_1MONTH_L = 0x07`. -/
def CyclePeriod.toNat : CyclePeriod → Nat
  | .CYCLE_OFF => 0x00 | .CYCLE_FIXED_L => 0x01 | .CYCLE_2HZ_P => 0x02
  | .CYCLE_1HZ_P => 0x03 | .CYCLE_1S_L => 0x04 | .CYCLE_1MIN_L => 0x05
  | .CYCLE_1H_L => 0x06 | .CYCLE_1MONTH_L => 0x07

/-! ## Register codec -/

/-- `uint8_t dec2bcd(uint8_t v) { return ((v / 10) << 4) | (v % 10); }`:
the expression is evaluated in `int` and truncated to eight bits on return. -/
def dec2bcd (v : Nat) : Nat := (((v / 10) <<< 4) ||| (v % 10)) % 256

/-- `uint8_t bcd2dec(uint8_t v) { return ((v >> 4) * 10) + (v & 0x0F); }`. -/
def bcd2dec (v : Nat) : Nat := (((v >>> 4) * 10) + (v &&& 0x0F)) % 256

/-- The command byte both `writeRegs` and `readRegs` pass to `_wire->write`:
`((reg & 0x0F) << 4) | ((reg & 0xF0) >> 4)`, sent as one byte. -/
def swapAddressNibbles (reg : Nat) : Nat :=
  (((reg &&& 0x0F) <<< 4) ||| ((reg &&& 0xF0) >>> 4)) % 256

/-- The compound assignment `v &= ~mask` on a `uint8_t v` with a constant mask
below 256: the complement is taken in `int`, so within the eight bits that are
stored back it is `0xFF xor mask`. -/
def andNot8 (v mask : Nat) : Nat := v &&& (0xFF ^^^ mask)

/-- `int RX8025RTC::getWeekday(int y, int m, int d)`: `/` and `%` on `int`
truncate toward zero. For arguments that come from `uint8_t` every
intermediate value stays below 4000, so no `int` overflows. -/
def getWeekday (y m d : Int) : Int :=
  let y0 := y + 2000
  let y1 := if m < 3 then y0 - 1 else y0
  let m1 := if m < 3 then m + 12 else m
  (y1 + y1.tdiv 4 - y1.tdiv 100 + y1.tdiv 400 + (13 * m1 + 8).tdiv 5 + d).tmod 7

/-- Conversion of an `int` to `uint8_t`. -/
def toUInt8 (x : Int) : Nat := (x % 256).toNat

/-! ## Simulated bus and device -/

/-- Modelled from the spec: the bus transport (Arduino `TwoWire`) and the RTC
behind it are external to the repository. Section 6 of the specification
describes them: a transaction begins with the command byte, followed by data
bytes for a write or by a repeated start and a burst read; the device
auto-increments its register pointer across a burst.

* `regs` is the sixteen-register file of the device (mode 0), `ptr` its
  register pointer;
* `txBuf` holds the bytes queued since `beginTransmission`, `rxBuf` the bytes
  received by `requestFrom` that were not read yet;
* `status n` is the code the `n`-th `endTransmission` returns (0 = success; a
  failed transaction commits nothing) and `shortfall n` the number of bytes
  the `n`-th `requestFrom` delivers fewer than requested;
* `nEnd` and `nReq` count the calls made so far;
* `sent` lists, oldest first, the byte sequence each `endTransmission` put on
  the bus (command byte first), whether or not it was acknowledged. -/
structure TwoWire where
  regs : Nat → Nat
  ptr : Nat
  txBuf : List Nat
  rxBuf : List Nat
  status : Nat → Nat
  shortfall : Nat → Nat
  nEnd : Nat
  nReq : Nat
  sent : List (List Nat)

/-- The device stores the data bytes of a burst at consecutive registers,
wrapping within the sixteen addresses. -/
def burstWrite (regs : Nat → Nat) (ptr : Nat) : List Nat → (Nat → Nat) × Nat
  | [] => (regs, ptr)
  | b :: bs => burstWrite (Function.update regs ptr b) ((ptr + 1) % 16) bs

/-- The device sends `n` consecutive registers starting at the pointer. -/
def burstRead (regs : Nat → Nat) (ptr : Nat) : Nat → List Nat
  | 0 => []
  | n + 1 => regs ptr :: burstRead regs ((ptr + 1) % 16) n

namespace TwoWire

/-- `beginTransmission(addr)`: start queueing a write. -/
def beginTransmission (w : TwoWire) : TwoWire := { w with txBuf := [] }

/-- `write(uint8_t)`: queue one byte. -/
def write (w : TwoWire) (b : Nat) : TwoWire := { w with txBuf := w.txBuf ++ [b % 256] }

/-- `write(const uint8_t *buf, size_t len)`: queue `len` bytes of `buf`. -/
def writeBuf (w : TwoWire) (buf : List Nat) (len : Nat) : TwoWire :=
  { w with txBuf := w.txBuf ++ (buf.take len).map (fun b => b % 256) }

/-- `endTransmission(stop)`: send the queued bytes as one transaction and
return its status code. When the transaction succeeds the device takes the
upper nibble of the command byte as its register pointer and stores the data
bytes; when it fails nothing is committed. -/
def endTransmission (w : TwoWire) (_stop : Bool) : Nat × TwoWire :=
  let code := w.status w.nEnd
  if code = 0 then
    match w.txBuf with
    | [] => (0, { w with nEnd := w.nEnd + 1, sent := w.sent ++ [[]] })
    | cmd :: data =>
      let r := burstWrite w.regs ((cmd >>> 4) % 16) data
      (0, { w with regs := r.1, ptr := r.2, txBuf := [], nEnd := w.nEnd + 1,
                   sent := w.sent ++ [cmd :: data] })
  else (code, { w with txBuf := [], nEnd := w.nEnd + 1, sent := w.sent ++ [w.txBuf] })

/-- `requestFrom(addr, len)`: burst-read from the device into the receive
buffer; returns the number of bytes received. -/
def requestFrom (w : TwoWire) (len : Nat) : Nat × TwoWire :=
  let n := len - w.shortfall w.nReq
  (n, { w with rxBuf := burstRead w.regs w.ptr n, ptr := (w.ptr + n) % 16,
               nReq := w.nReq + 1 })

/-- `available()`: number of received bytes not read yet. -/
def available (w : TwoWire) : Nat := w.rxBuf.length

/-- `read()` stored into a `uint8_t`: the next received byte; with nothing
left `read()` returns `-1`, which is 255 as a `uint8_t`. -/
def read (w : TwoWire) : Nat × TwoWire :=
  match w.rxBuf with
  | [] => (255, w)
  | b :: bs => (b, { w with rxBuf := bs })

/-- Every transaction of the script succeeds: each `endTransmission` returns
0 and each `requestFrom` delivers all the bytes asked for. -/
def AllSucceed (w : TwoWire) : Prop :=
  (∀ n, w.status n = 0) ∧ (∀ n, w.shortfall n = 0)

end TwoWire

/-- A bus on which every transaction succeeds, over the register file `regs`. -/
def idealWire (regs : Nat → Nat) : TwoWire :=
  { regs := regs, ptr := 0, txBuf := [], rxBuf := [],
    status := fun _ => 0, shortfall := fun _ => 0, nEnd := 0, nReq := 0, sent := [] }

/-- A bus over the register file `regs` with the given failure script. -/
def scriptedWire (regs : Nat → Nat) (status shortfall : Nat → Nat) : TwoWire :=
  { regs := regs, ptr := 0, txBuf := [], rxBuf := [],
    status := status, shortfall := shortfall, nEnd := 0, nReq := 0, sent := [] }

/-! ## Bus access (`RX-8025RTC.cpp`) -/

/-- `bool RX8025RTC::writeRegs(uint8_t reg, const uint8_t *buf, uint8_t len)`. -/
def writeRegs (w : TwoWire) (reg : Nat) (buf : List Nat) (len : Nat) : Bool × TwoWire :=
  let w1 := w.beginTransmission
  let w2 := w1.write (swapAddressNibbles reg)
  let w3 := w2.writeBuf buf len
  let r := w3.endTransmission true
  (r.1 == 0, r.2)

/-- The loop of `readRegs`, with `n` iterations left and index `i`:
`for (i = 0; i < len; i++) if (_wire->available()) buf[i] = _wire->read();`. -/
def readLoop : Nat → Nat → TwoWire → (Nat → Nat) → (Nat → Nat) × TwoWire
  | 0, _, w, buf => (buf, w)
  | n + 1, i, w, buf =>
    if w.available ≠ 0 then
      let r := w.read
      readLoop n (i + 1) r.2 (Function.update buf i r.1)
    else
      readLoop n (i + 1) w buf

/-- `bool RX8025RTC::readRegs(uint8_t reg, uint8_t *buf, uint8_t len)`: the
buffer is passed in with its prior content and returned with the received
bytes stored. -/
def readRegs (w : TwoWire) (reg : Nat) (buf : Nat → Nat) (len : Nat) :
    Bool × (Nat → Nat) × TwoWire :=
  let w1 := w.beginTransmission
  let w2 := w1.write (swapAddressNibbles reg)
  let r := w2.endTransmission false
  if r.1 ≠ 0 then (false, buf, r.2)
  else
    let q := r.2.requestFrom len
    let l := readLoop len 0 q.2 buf
    (true, l.1, l.2)

/-! ## Time and date -/

/-- `bool RX8025RTC::setTime(uint8_t hour, uint8_t min, uint8_t sec)`. -/
def setTime (w : TwoWire) (hour min sec : Nat) : Bool × TwoWire :=
  writeRegs w REG_SEC [dec2bcd sec, dec2bcd min, dec2bcd hour] 3

/-- `bool RX8025RTC::getTime(uint8_t &hour, uint8_t &min, uint8_t &sec)`:
`some (hour, min, sec)` when the function returns `true`, `none` when it
returns `false`. `buf` is the prior content of the local `uint8_t buf[3]`. -/
def getTime (w : TwoWire) (buf : Nat → Nat) : Option (Nat × Nat × Nat) × TwoWire :=
  let r := readRegs w REG_SEC buf 3
  if !r.1 then (none, r.2.2)
  else
    let sec := bcd2dec (r.2.1 0 &&& 0x7F)
    let min := bcd2dec (r.2.1 1 &&& 0x7F)
    let hour := bcd2dec (r.2.1 2 &&& 0x3F)
    (some (hour, min, sec), r.2.2)

/-- `bool RX8025RTC::setDate(uint8_t year, uint8_t month, uint8_t day)`. -/
def setDate (w : TwoWire) (year month day : Nat) : Bool × TwoWire :=
  let wday := toUInt8 (getWeekday year month day)
  writeRegs w REG_WEEK [(wday &&& 0x07) % 256, dec2bcd day, dec2bcd month, dec2bcd year] 4

/-- `bool RX8025RTC::getDate(uint8_t &year, uint8_t &month, uint8_t &day,
uint8_t &wday)`: `some (year, month, day, wday)` when the function returns
`true`. `buf` is the prior content of the local `uint8_t buf[4]`. -/
def getDate (w : TwoWire) (buf : Nat → Nat) : Option (Nat × Nat × Nat × Nat) × TwoWire :=
  let r := readRegs w REG_WEEK buf 4
  if !r.1 then (none, r.2.2)
  else
    let wday := r.2.1 0 &&& 0x07
    let day := bcd2dec (r.2.1 1 &&& 0x3F)
    let month := bcd2dec (r.2.1 2 &&& 0x1F)
    let year := bcd2dec (r.2.1 3)
    (some (year, month, day, wday), r.2.2)

/-! ## Status -/

/-- `uint8_t RX8025RTC::readStatus1()`: the result of `readRegs` is ignored;
`s` is the prior content of the local `uint8_t s`. -/
def readStatus1 (w : TwoWire) (s : Nat) : Nat × TwoWire :=
  let r := readRegs w REG_CTRL1 (fun _ => s) 1
  (r.2.1 0, r.2.2)

/-- `uint8_t RX8025RTC::readStatus2()`: the result of `readRegs` is ignored;
`s` is the prior content of the local `uint8_t s`. -/
def readStatus2 (w : TwoWire) (s : Nat) : Nat × TwoWire :=
  let r := readRegs w REG_CTRL2 (fun _ => s) 1
  (r.2.1 0, r.2.2)

/-- `bool RX8025RTC::voltageLow()`. -/
def voltageLow (w : TwoWire) (s : Nat) : Bool × TwoWire :=
  let r := readStatus2 w s
  (r.1 &&& 0x80 != 0, r.2)

/-! ## Alarm D -/

/-- `bool RX8025RTC::setAlarmD(uint8_t hour, uint8_t min)`. -/
def setAlarmD (w : TwoWire) (hour min : Nat) : Bool × TwoWire :=
  writeRegs w REG_ALM_D_MIN [dec2bcd min, dec2bcd hour] 2

/-- `bool RX8025RTC::enableAlarmD(bool enable)`; `ctrl1` is the prior content
of the local `uint8_t ctrl1`. -/
def enableAlarmD (w : TwoWire) (enable : Bool) (ctrl1 : Nat) : Bool × TwoWire :=
  let r := readRegs w REG_CTRL1 (fun _ => ctrl1) 1
  if !r.1 then (false, r.2.2)
  else
    let c := if enable then r.2.1 0 ||| 0x40 else andNot8 (r.2.1 0) 0x40
    writeRegs r.2.2 REG_CTRL1 [c] 1

/-- `bool RX8025RTC::alarmDFlag()`. -/
def alarmDFlag (w : TwoWire) (s : Nat) : Bool × TwoWire :=
  let r := readStatus2 w s
  (r.1 &&& 0x01 != 0, r.2)

/-- `bool RX8025RTC::clearAlarmDFlag()`; `s` is the prior content of the local
of `readStatus2`. -/
def clearAlarmDFlag (w : TwoWire) (s : Nat) : Bool × TwoWire :=
  let r := readStatus2 w s
  writeRegs r.2 REG_CTRL2 [andNot8 r.1 0x01] 1

/-! ## Alarm W -/

/-- `bool RX8025RTC::setAlarmW(uint8_t hour, uint8_t min, WeekdayMask weekMask)`:
`weekMask` is the value of the enumeration (any union of the day bits); the
buffer holds `(uint8_t)weekMask`. -/
def setAlarmW (w : TwoWire) (hour min : Nat) (weekMask : Nat) : Bool × TwoWire :=
  writeRegs w REG_ALM_W_MIN [dec2bcd min, dec2bcd hour, weekMask % 256] 3

/-- `bool RX8025RTC::enableAlarmW(bool enable)`; `ctrl1` is the prior content
of the local `uint8_t ctrl1`. -/
def enableAlarmW (w : TwoWire) (enable : Bool) (ctrl1 : Nat) : Bool × TwoWire :=
  let r := readRegs w REG_CTRL1 (fun _ => ctrl1) 1
  if !r.1 then (false, r.2.2)
  else
    let c := if enable then r.2.1 0 ||| 0x80 else andNot8 (r.2.1 0) 0x80
    writeRegs r.2.2 REG_CTRL1 [c] 1

/-- `bool RX8025RTC::alarmWFlag()`. -/
def alarmWFlag (w : TwoWire) (s : Nat) : Bool × TwoWire :=
  let r := readStatus2 w s
  (r.1 &&& 0x02 != 0, r.2)

/-- `bool RX8025RTC::clearAlarmWFlag()`. -/
def clearAlarmWFlag (w : TwoWire) (s : Nat) : Bool × TwoWire :=
  let r := readStatus2 w s
  writeRegs r.2 REG_CTRL2 [andNot8 r.1 0x02] 1

/-! ## Periodic interrupt -/

/-- `bool RX8025RTC::setCycleTimer(CyclePeriod period)`; `ctrl1` is the prior
content of the local `uint8_t ctrl1`. -/
def setCycleTimer (w : TwoWire) (period : CyclePeriod) (ctrl1 : Nat) : Bool × TwoWire :=
  let r := readRegs w REG_CTRL1 (fun _ => ctrl1) 1
  if !r.1 then (false, r.2.2)
  else
    let c := (r.2.1 0 &&& 0xF8) ||| (period.toNat % 256)
    writeRegs r.2.2 REG_CTRL1 [c] 1

/-- `bool RX8025RTC::enableCycleTimer(bool enable)`; `ctrl2` is the prior
content of the local `uint8_t ctrl2`. -/
def enableCycleTimer (w : TwoWire) (enable : Bool) (ctrl2 : Nat) : Bool × TwoWire :=
  let r := readRegs w REG_CTRL2 (fun _ => ctrl2) 1
  if !r.1 then (false, r.2.2)
  else
    let c := if enable then r.2.1 0 ||| 0x40 else andNot8 (r.2.1 0) 0x40
    writeRegs r.2.2 REG_CTRL2 [c] 1

/-- `bool RX8025RTC::cycleTimerFlag()`. -/
def cycleTimerFlag (w : TwoWire) (s : Nat) : Bool × TwoWire :=
  let r := readStatus2 w s
  (r.1 &&& 0x04 != 0, r.2)

/-- `bool RX8025RTC::clearCycleTimerFlag()`. -/
def clearCycleTimerFlag (w : TwoWire) (s : Nat) : Bool × TwoWire :=
  let r := readStatus2 w s
  writeRegs r.2 REG_CTRL2 [andNot8 r.1 0x04] 1

/-! ## Initialisation -/

/-- Gregorian leap-year rule. -/
def isLeapYear (y : Nat) : Bool := y % 4 == 0 && (y % 100 != 0 || y % 400 == 0)

/-- Number of days of month `m` (1 = January) of year `y`. -/
def daysInMonth (y m : Nat) : Nat :=
  if m = 2 then (if isLeapYear y then 29 else 28)
  else if m = 4 ∨ m = 6 ∨ m = 9 ∨ m = 11 then 30
  else 31

/-- Number of days of year `y`. -/
def daysInYear (y : Nat) : Nat := if isLeapYear y then 366 else 365

/-- Days in the years 2000 .. `y - 1`. -/
def daysBeforeYear (y : Nat) : Nat :=
  ((List.range (y - 2000)).map (fun k => daysInYear (2000 + k))).sum

/-- Days in the months January .. `m - 1` of year `y`. -/
def daysBeforeMonth (y m : Nat) : Nat :=
  ((List.range (m - 1)).map (fun k => daysInMonth y (k + 1))).sum

/-- A calendar date from 2000-01-01 through 2099-12-31. -/
def validDate (y m d : Nat) : Prop :=
  2000 ≤ y ∧ y ≤ 2099 ∧ 1 ≤ m ∧ m ≤ 12 ∧ 1 ≤ d ∧ d ≤ daysInMonth y m

instance (y m d : Nat) : Decidable (validDate y m d) := by
  unfold validDate
  infer_instance

/-- Day of the week of the date `y`-`m`-`d` (0 = Sunday .. 6 = Saturday):
2000-01-01 was a Saturday (6), and each elapsed day advances the weekday by
one. -/
def gregorianWeekday (y m d : Nat) : Nat :=
  (6 + daysBeforeYear y + daysBeforeMonth y m + (d - 1)) % 7

/-! ## Codec facts -/

theorem bcd_roundtrip_lt_100 : ∀ v < 100, bcd2dec (dec2bcd v) = v := by decide!

theorem swap_swap_byte : ∀ x < 256, swapAddressNibbles (swapAddressNibbles x) = x := by
  decide!

theorem swap_ptr : ∀ reg < 16, ((swapAddressNibbles reg % 256) >>> 4) % 16 = reg := by
  decide

/-- The upper nibble of the command byte of a mode 0 register is its address. -/
theorem swap_shift : ∀ reg < 16, swapAddressNibbles reg >>> 4 = reg := by
  decide

/-- What `getTime` decodes from the bytes `setTime` stores. -/
theorem time_codec : ∀ h < 24, ∀ m < 60,
    bcd2dec (dec2bcd h % 256 &&& 0x3F) = h ∧ bcd2dec (dec2bcd m % 256 &&& 0x7F) = m := by
  decide!

/-! ## Weekday facts -/

/-- On non-negative arguments the truncating operators of `getWeekday` agree
with floor division, and the day enters the sum linearly. -/
theorem getWeekday_eq_emod (y m d : Nat) :
    getWeekday y m d =
      if m < 3 then
        ((y : Int) + 1999 + ((y : Int) + 1999) / 4 - ((y : Int) + 1999) / 100
          + ((y : Int) + 1999) / 400 + (13 * ((m : Int) + 12) + 8) / 5 + d) % 7
      else
        ((y : Int) + 2000 + ((y : Int) + 2000) / 4 - ((y : Int) + 2000) / 100
          + ((y : Int) + 2000) / 400 + (13 * (m : Int) + 8) / 5 + d) % 7 := by
  unfold getWeekday
  simp only []
  by_cases hm : m < 3
  · have hm2 : (m : Int) < 3 := by omega
    simp only [hm, hm2, if_true]
    rw [Int.tdiv_eq_ediv (by omega) (by omega), Int.tdiv_eq_ediv (by omega) (by omega),
      Int.tdiv_eq_ediv (by omega) (by omega), Int.tdiv_eq_ediv (by omega) (by omega)]
    rw [Int.tmod_eq_emod (by omega) (by omega)]
    omega
  · have hm2 : ¬ (m : Int) < 3 := by omega
    simp only [hm, hm2, if_false]
    rw [Int.tdiv_eq_ediv (by omega) (by omega), Int.tdiv_eq_ediv (by omega) (by omega),
      Int.tdiv_eq_ediv (by omega) (by omega), Int.tdiv_eq_ediv (by omega) (by omega)]
    rw [Int.tmod_eq_emod (by omega) (by omega)]

/-- The result of `getWeekday` on non-negative arguments is a weekday number. -/
theorem getWeekday_range (y m d : Nat) :
    0 ≤ getWeekday y m d ∧ getWeekday y m d ≤ 6 := by
  rw [getWeekday_eq_emod]
  split <;> omega

/-- Moving from the first of the month to day `d` advances `getWeekday` by
`d - 1` days. -/
theorem getWeekday_shift (y m d : Nat) (hd : 1 ≤ d) :
    getWeekday y m d = (getWeekday y m 1 + ((d - 1 : Nat) : Int)) % 7 := by
  have h1 := getWeekday_eq_emod y m 1
  rw [Nat.cast_one] at h1
  rw [getWeekday_eq_emod y m d, h1]
  split <;> omega

/-- The same for the reference calendar. -/
theorem gregorianWeekday_shift (y m d : Nat) :
    gregorianWeekday y m d = (gregorianWeekday y m 1 + (d - 1)) % 7 := by
  unfold gregorianWeekday
  omega

/-- The driver and the reference calendar agree on the first day of every
month of 2000 .. 2099. -/
theorem getWeekday_first_of_month : ∀ y < 100, ∀ m < 13, 1 ≤ m →
    getWeekday (y : Nat) (m : Nat) 1 = (gregorianWeekday (2000 + y) m 1 : Nat) := by
  decide!

/-! ## Bus access facts -/

/-- The command byte is a byte. -/
theorem swapAddressNibbles_mod (reg : Nat) :
    swapAddressNibbles reg % 256 = swapAddressNibbles reg := by
  unfold swapAddressNibbles
  exact Nat.mod_mod _ _

/-- A write transaction that succeeds stores the burst at `reg`. -/
theorem writeRegs_ok (w : TwoWire) (reg : Nat) (buf : List Nat) (len : Nat)
    (h : w.status w.nEnd = 0) (hreg : reg < 16) :
    writeRegs w reg buf len =
      (true,
        { w with
          regs := (burstWrite w.regs reg ((buf.take len).map (fun b => b % 256))).1,
          ptr := (burstWrite w.regs reg ((buf.take len).map (fun b => b % 256))).2,
          txBuf := [], nEnd := w.nEnd + 1,
          sent := w.sent ++
            [swapAddressNibbles reg :: (buf.take len).map (fun b => b % 256)] }) := by
  simp [writeRegs, TwoWire.endTransmission, TwoWire.writeBuf, TwoWire.write,
    TwoWire.beginTransmission, h, swap_shift reg hreg, Nat.mod_eq_of_lt hreg, swapAddressNibbles_mod]

/-- A write transaction that fails reports failure and commits nothing. -/
theorem writeRegs_fail (w : TwoWire) (reg : Nat) (buf : List Nat) (len : Nat)
    (h : w.status w.nEnd ≠ 0) :
    writeRegs w reg buf len =
      (false,
        { w with
          txBuf := [], nEnd := w.nEnd + 1,
          sent := w.sent ++
            [swapAddressNibbles reg :: (buf.take len).map (fun b => b % 256)] }) := by
  simp [writeRegs, TwoWire.endTransmission, TwoWire.writeBuf, TwoWire.write,
    TwoWire.beginTransmission, h, swapAddressNibbles_mod]

/-- A read whose address phase fails reports failure and leaves the buffer. -/
theorem readRegs_fail (w : TwoWire) (reg : Nat) (buf : Nat → Nat) (len : Nat)
    (h : w.status w.nEnd ≠ 0) :
    readRegs w reg buf len =
      (false, buf,
        { w with txBuf := [], nEnd := w.nEnd + 1,
                 sent := w.sent ++ [[swapAddressNibbles reg]] }) := by
  simp [readRegs, TwoWire.endTransmission, TwoWire.write, TwoWire.beginTransmission, h,
    swapAddressNibbles_mod]

/-- A one-byte read on which both steps succeed. -/
theorem readRegs_ok1 (w : TwoWire) (reg : Nat) (buf : Nat → Nat)
    (h : w.status w.nEnd = 0) (hs : w.shortfall w.nReq = 0) (hreg : reg < 16) :
    readRegs w reg buf 1 =
      (true, Function.update buf 0 (w.regs reg),
        { w with ptr := (reg + 1) % 16, txBuf := [], rxBuf := [],
                 nEnd := w.nEnd + 1, nReq := w.nReq + 1,
                 sent := w.sent ++ [[swapAddressNibbles reg]] }) := by
  simp [readRegs, TwoWire.endTransmission, TwoWire.write, TwoWire.requestFrom, readLoop,
    TwoWire.available, TwoWire.read, TwoWire.beginTransmission, h, hs, swap_shift reg hreg, Nat.mod_eq_of_lt hreg,
    burstWrite, burstRead, swapAddressNibbles_mod]

/-- A three-byte burst read on which both steps succeed. -/
theorem readRegs_ok3 (w : TwoWire) (reg : Nat) (buf : Nat → Nat)
    (h : w.status w.nEnd = 0) (hs : w.shortfall w.nReq = 0) (hreg : reg + 2 < 16) :
    readRegs w reg buf 3 =
      (true,
        Function.update (Function.update (Function.update buf 0 (w.regs reg)) 1
          (w.regs (reg + 1))) 2 (w.regs (reg + 2)),
        { w with ptr := (reg + 3) % 16, txBuf := [], rxBuf := [],
                 nEnd := w.nEnd + 1, nReq := w.nReq + 1,
                 sent := w.sent ++ [[swapAddressNibbles reg]] }) := by
  have h1 : (reg + 1) % 16 = reg + 1 := by omega
  have h2 : (reg + 1 + 1) % 16 = reg + 2 := by omega
  simp [readRegs, TwoWire.endTransmission, TwoWire.write, TwoWire.requestFrom, readLoop,
    TwoWire.available, TwoWire.read, TwoWire.beginTransmission, h, hs,
    swap_shift reg (by omega), Nat.mod_eq_of_lt (show reg < 16 by omega), burstWrite, burstRead, h1, h2,
    swapAddressNibbles_mod]

/-- A four-byte burst read on which both steps succeed. -/
theorem readRegs_ok4 (w : TwoWire) (reg : Nat) (buf : Nat → Nat)
    (h : w.status w.nEnd = 0) (hs : w.shortfall w.nReq = 0) (hreg : reg + 3 < 16) :
    readRegs w reg buf 4 =
      (true,
        Function.update (Function.update (Function.update (Function.update buf 0 (w.regs reg))
          1 (w.regs (reg + 1))) 2 (w.regs (reg + 2))) 3 (w.regs (reg + 3)),
        { w with ptr := (reg + 4) % 16, txBuf := [], rxBuf := [],
                 nEnd := w.nEnd + 1, nReq := w.nReq + 1,
                 sent := w.sent ++ [[swapAddressNibbles reg]] }) := by
  have h1 : (reg + 1) % 16 = reg + 1 := by omega
  have h2 : (reg + 1 + 1) % 16 = reg + 2 := by omega
  have h3 : (reg + 2 + 1) % 16 = reg + 3 := by omega
  simp [readRegs, TwoWire.endTransmission, TwoWire.write, TwoWire.requestFrom, readLoop,
    TwoWire.available, TwoWire.read, TwoWire.beginTransmission, h, hs,
    swap_shift reg (by omega), Nat.mod_eq_of_lt (show reg < 16 by omega), burstWrite, burstRead, h1, h2, h3,
    swapAddressNibbles_mod]

/-- The ideal bus never fails. -/
theorem idealWire_allSucceed (regs : Nat → Nat) : (idealWire regs).AllSucceed :=
  ⟨fun _ => rfl, fun _ => rfl⟩

/-- The loop of `readRegs` touches only the receive buffer of the bus. -/
theorem readLoop_frame (n : Nat) : ∀ (i : Nat) (w : TwoWire) (buf : Nat → Nat),
    (readLoop n i w buf).2.regs = w.regs ∧ (readLoop n i w buf).2.status = w.status ∧
    (readLoop n i w buf).2.shortfall = w.shortfall ∧ (readLoop n i w buf).2.nEnd = w.nEnd ∧
    (readLoop n i w buf).2.nReq = w.nReq := by
  induction n with
  | zero => intro i w buf; simp [readLoop]
  | succ n ih =>
    intro i w buf
    simp only [readLoop]
    split
    · have h := ih (i + 1) w.read.2 (Function.update buf i w.read.1)
      have hr : w.read.2.regs = w.regs ∧ w.read.2.status = w.status ∧
          w.read.2.shortfall = w.shortfall ∧ w.read.2.nEnd = w.nEnd ∧
          w.read.2.nReq = w.nReq := by
        unfold TwoWire.read
        split <;> simp
      obtain ⟨a1, a2, a3, a4, a5⟩ := h
      obtain ⟨b1, b2, b3, b4, b5⟩ := hr
      exact ⟨a1.trans b1, a2.trans b2, a3.trans b3, a4.trans b4, a5.trans b5⟩
    · exact ih (i + 1) w buf

/-- `readRegs` reports the status of its address phase only, and never changes
a device register or the failure script. -/
theorem readRegs_frame (w : TwoWire) (reg : Nat) (buf : Nat → Nat) (len : Nat) :
    (readRegs w reg buf len).1 = (w.status w.nEnd == 0) ∧
    (readRegs w reg buf len).2.2.regs = w.regs ∧
    (readRegs w reg buf len).2.2.status = w.status ∧
    (readRegs w reg buf len).2.2.shortfall = w.shortfall ∧
    (readRegs w reg buf len).2.2.nEnd = w.nEnd + 1 := by
  by_cases h : w.status w.nEnd = 0
  · simp [readRegs, TwoWire.endTransmission, TwoWire.write, TwoWire.beginTransmission, h,
      burstWrite, readLoop_frame, TwoWire.requestFrom]
  · simp [readRegs_fail, h]

/-- `writeRegs` reports the status of its transaction, leaves the failure
script alone, and changes no register when the transaction fails. -/
theorem writeRegs_frame (w : TwoWire) (reg : Nat) (buf : List Nat) (len : Nat) :
    (writeRegs w reg buf len).1 = (w.status w.nEnd == 0) ∧
    (writeRegs w reg buf len).2.status = w.status ∧
    (writeRegs w reg buf len).2.shortfall = w.shortfall ∧
    (writeRegs w reg buf len).2.nEnd = w.nEnd + 1 ∧
    (writeRegs w reg buf len).2.nReq = w.nReq ∧
    (w.status w.nEnd ≠ 0 → (writeRegs w reg buf len).2.regs = w.regs) := by
  by_cases h : w.status w.nEnd = 0
  · simp [writeRegs, TwoWire.endTransmission, TwoWire.write, TwoWire.beginTransmission, h,
      TwoWire.writeBuf]
  · simp [writeRegs_fail, h]

/-! ## Control register facts -/

/-- Bits 8 and above of a byte are zero. -/
theorem testBit_byte_high (x i : Nat) (hx : x < 256) (hi : 8 ≤ i) : x.testBit i = false :=
  Nat.testBit_lt_two_pow (lt_of_lt_of_le hx (by
    calc 256 = 2 ^ 8 := by norm_num
      _ ≤ 2 ^ i := Nat.pow_le_pow_right (by norm_num) hi))

/-- Setting or clearing bit 6 or bit 7 of a byte changes no other bit. -/
theorem enable_bits : ∀ c < 256, ∀ i < 8,
    (((c ||| 0x40) % 256).testBit i = if i = 6 then true else c.testBit i) ∧
    ((andNot8 c 0x40 % 256).testBit i = if i = 6 then false else c.testBit i) ∧
    (((c ||| 0x80) % 256).testBit i = if i = 7 then true else c.testBit i) ∧
    ((andNot8 c 0x80 % 256).testBit i = if i = 7 then false else c.testBit i) := by
  decide!

/-- The alarm-enable updates keep the low three bits of a byte. -/
theorem enable_low3 : ∀ c < 256,
    ((c ||| 0x40) % 256) &&& 0x07 = c &&& 0x07 ∧ (andNot8 c 0x40 % 256) &&& 0x07 = c &&& 0x07 ∧
    ((c ||| 0x80) % 256) &&& 0x07 = c &&& 0x07 ∧ (andNot8 c 0x80 % 256) &&& 0x07 = c &&& 0x07 := by
  decide!

/-- The cycle-select update stores the period in the low three bits. -/
theorem cycle_low3 : ∀ c < 256, ∀ p < 8,
    (((c &&& 0xF8) ||| (p % 256)) % 256) &&& 0x07 = p := by
  decide!

/-- Every cycle period is a three-bit value. -/
theorem CyclePeriod.toNat_lt (p : CyclePeriod) : p.toNat < 8 := by
  cases p <;> decide

/-- Clearing one trigger flag of a byte: the stored value and its bits. -/
theorem clear_bits : ∀ c < 256,
    (andNot8 c 0x01 % 256 = c &&& 0xFE ∧ andNot8 c 0x02 % 256 = c &&& 0xFD ∧
      andNot8 c 0x04 % 256 = c &&& 0xFB) ∧
    ∀ i < 8,
      ((c &&& 0xFE).testBit i = if i = 0 then false else c.testBit i) ∧
      ((c &&& 0xFD).testBit i = if i = 1 then false else c.testBit i) ∧
      ((c &&& 0xFB).testBit i = if i = 2 then false else c.testBit i) := by
  decide!

/-- `enableAlarmD` on a bus that never fails. -/
theorem enableAlarmD_ok (w : TwoWire) (e : Bool) (g : Nat) (hw : w.AllSucceed) :
    (enableAlarmD w e g).1 = true ∧
    (enableAlarmD w e g).2.regs = Function.update w.regs REG_CTRL1
      ((if e then w.regs REG_CTRL1 ||| 0x40 else andNot8 (w.regs REG_CTRL1) 0x40) % 256) ∧
    (enableAlarmD w e g).2.AllSucceed := by
  obtain ⟨h1, h2⟩ := hw
  simp [enableAlarmD, REG_CTRL1, readRegs_ok1, writeRegs_ok, h1, h2, burstWrite,
    TwoWire.AllSucceed]

/-- `enableAlarmW` on a bus that never fails. -/
theorem enableAlarmW_ok (w : TwoWire) (e : Bool) (g : Nat) (hw : w.AllSucceed) :
    (enableAlarmW w e g).1 = true ∧
    (enableAlarmW w e g).2.regs = Function.update w.regs REG_CTRL1
      ((if e then w.regs REG_CTRL1 ||| 0x80 else andNot8 (w.regs REG_CTRL1) 0x80) % 256) ∧
    (enableAlarmW w e g).2.AllSucceed := by
  obtain ⟨h1, h2⟩ := hw
  simp [enableAlarmW, REG_CTRL1, readRegs_ok1, writeRegs_ok, h1, h2, burstWrite,
    TwoWire.AllSucceed]

/-- `setCycleTimer` on a bus that never fails. -/
theorem setCycleTimer_ok (w : TwoWire) (p : CyclePeriod) (g : Nat) (hw : w.AllSucceed) :
    (setCycleTimer w p g).1 = true ∧
    (setCycleTimer w p g).2.regs = Function.update w.regs REG_CTRL1
      (((w.regs REG_CTRL1 &&& 0xF8) ||| (p.toNat % 256)) % 256) ∧
    (setCycleTimer w p g).2.AllSucceed := by
  obtain ⟨h1, h2⟩ := hw
  simp [setCycleTimer, REG_CTRL1, readRegs_ok1, writeRegs_ok, h1, h2, burstWrite,
    TwoWire.AllSucceed]

/-- The three flag-clearing operations on a bus that never fails. -/
theorem clearFlags_ok (w : TwoWire) (s : Nat) (hw : w.AllSucceed) :
    ((clearAlarmDFlag w s).1 = true ∧
      (clearAlarmDFlag w s).2.regs = Function.update w.regs REG_CTRL2
        (andNot8 (w.regs REG_CTRL2) 0x01 % 256)) ∧
    ((clearAlarmWFlag w s).1 = true ∧
      (clearAlarmWFlag w s).2.regs = Function.update w.regs REG_CTRL2
        (andNot8 (w.regs REG_CTRL2) 0x02 % 256)) ∧
    ((clearCycleTimerFlag w s).1 = true ∧
      (clearCycleTimerFlag w s).2.regs = Function.update w.regs REG_CTRL2
        (andNot8 (w.regs REG_CTRL2) 0x04 % 256)) := by
  obtain ⟨h1, h2⟩ := hw
  simp [clearAlarmDFlag, clearAlarmWFlag, clearCycleTimerFlag, readStatus2, REG_CTRL2,
    readRegs_ok1, writeRegs_ok, h1, h2, burstWrite]

/-- What `getDate` decodes from the bytes `setDate` stores. -/
theorem date_codec : (∀ y < 100, bcd2dec (dec2bcd y % 256) = y) ∧
    (∀ m < 13, bcd2dec (dec2bcd m % 256 &&& 0x1F) = m) ∧
    (∀ d < 32, bcd2dec (dec2bcd d % 256 &&& 0x3F) = d) ∧
    (∀ n < 7, ((n &&& 7) % 256) &&& 7 = n) := by
  decide!

/-! ## Claims -/

/-- C1: for every integer `v` with `0 ≤ v ≤ 99`, decoding the BCD encoding of
`v` gives `v` back, both functions being computed in 8-bit unsigned
arithmetic. -/
theorem C1_bcd2dec_dec2bcd (v : Nat) (hv : v ≤ 99) : bcd2dec (dec2bcd v) = v :=
  bcd_roundtrip_lt_100 v (by omega)

theorem C1_bcd2dec_dec2bcd_witness : 59 ≤ 99 ∧ bcd2dec (dec2bcd 59) = 59 :=
  ⟨by decide, C1_bcd2dec_dec2bcd 59 (by decide)⟩

/-- C2: for every calendar-valid date from 2000-01-01 through 2099-12-31,
`getWeekday` called with `year - 2000` returns the Gregorian day of the week
of that date (0 = Sunday .. 6 = Saturday); in particular
`getWeekday(0,1,1) = 6` and `getWeekday(24,1,1) = 1`. -/
theorem C2_getWeekday_gregorian (year m d : Nat) (hv : validDate year m d) :
    getWeekday ((year : Int) - 2000) m d = gregorianWeekday year m d ∧
    getWeekday 0 1 1 = 6 ∧ getWeekday 24 1 1 = 1 := by
  obtain ⟨h1, h2, h3, h4, h5, _⟩ := hv
  refine ⟨?_, by decide, by decide⟩
  have hy : (year : Int) - 2000 = ((year - 2000 : Nat) : Int) := by omega
  have hf := getWeekday_first_of_month (year - 2000) (by omega) m (by omega) h3
  have hy2 : 2000 + (year - 2000) = year := by omega
  rw [hy2] at hf
  rw [hy, getWeekday_shift _ _ _ h5, hf, gregorianWeekday_shift year m d]
  omega

theorem C2_getWeekday_gregorian_witness :
    validDate 2024 2 29 ∧
    (getWeekday (((2024 : Nat) : Int) - 2000) ((2 : Nat) : Int) ((29 : Nat) : Int)
        = ((gregorianWeekday 2024 2 29 : Nat) : Int) ∧
      getWeekday 0 1 1 = 6 ∧ getWeekday 24 1 1 = 1) :=
  ⟨by decide, C2_getWeekday_gregorian 2024 2 29 (by decide)⟩

/-- C3: the nibble swap that builds the command byte is its own inverse on
every byte `x` in 0..255. -/
theorem C3_swap_involutive (x : Nat) (hx : x < 256) :
    swapAddressNibbles (swapAddressNibbles x) = x :=
  swap_swap_byte x hx

theorem C3_swap_involutive_witness :
    0x1E < 256 ∧ swapAddressNibbles (swapAddressNibbles 0x1E) = 0x1E :=
  ⟨by decide, C3_swap_involutive 0x1E (by decide)⟩

/-- C4: on a bus on which every transaction succeeds, for every hour in
0..23, minute in 0..59 and second in 0..59, `setTime` reports success and a
following `getTime` reports success with exactly the hour, minute and second
that were set. -/
theorem C4_setTime_getTime (w : TwoWire) (buf : Nat → Nat) (h m s : Nat)
    (hw : w.AllSucceed) (hh : h ≤ 23) (hm : m ≤ 59) (hs : s ≤ 59) :
    (setTime w h m s).1 = true ∧
    (getTime (setTime w h m s).2 buf).1 = some (h, m, s) := by
  obtain ⟨h1, h2⟩ := hw
  have e1 := (time_codec h (by omega) m (by omega)).1
  have e2 := (time_codec h (by omega) m (by omega)).2
  have e3 := (time_codec h (by omega) s (by omega)).2
  simp [setTime, getTime, REG_SEC, writeRegs_ok, readRegs_ok3, h1, h2, burstWrite,
    e1, e2, e3]

theorem C4_setTime_getTime_witness :
    (idealWire (fun _ => 0)).AllSucceed ∧ 23 ≤ 23 ∧ 59 ≤ 59 ∧ 58 ≤ 59 ∧
    (setTime (idealWire (fun _ => 0)) 23 59 58).1 = true ∧
    (getTime (setTime (idealWire (fun _ => 0)) 23 59 58).2 (fun _ => 0)).1
      = some (23, 59, 58) :=
  ⟨idealWire_allSucceed _, by decide, by decide, by decide,
    C4_setTime_getTime (idealWire (fun _ => 0)) (fun _ => 0) 23 59 58
      (idealWire_allSucceed _) (by decide) (by decide) (by decide)⟩

/-- On a bus on which every transaction succeeds and every read delivers its
byte: for every initial Control1 byte `c` and every boolean `e`,
`enableAlarmD e` reports success and leaves Control1
equal to `c` with only bit 6 replaced by `e`, and `enableAlarmW e` reports
success and leaves Control1 equal to `c` with only bit 7 replaced by `e`;
hence for every cycle mode `p`, after `setCycleTimer p`, `enableAlarmD` and
`enableAlarmW` the low three bits of Control1 still read `p`. -/
theorem alarm_enable_isolation_allSucceed (w : TwoWire) (c : Nat) (e eD eW : Bool)
    (p : CyclePeriod) (g g1 g2 g3 : Nat)
    (hw : w.AllSucceed) (hc : w.regs REG_CTRL1 = c) (hb : c < 256) :
    ((enableAlarmD w e g).1 = true ∧
      ∀ i, ((enableAlarmD w e g).2.regs REG_CTRL1).testBit i
        = if i = 6 then e else c.testBit i) ∧
    ((enableAlarmW w e g).1 = true ∧
      ∀ i, ((enableAlarmW w e g).2.regs REG_CTRL1).testBit i
        = if i = 7 then e else c.testBit i) ∧
    ((setCycleTimer w p g1).1 = true ∧
      (enableAlarmD (setCycleTimer w p g1).2 eD g2).1 = true ∧
      (enableAlarmW (enableAlarmD (setCycleTimer w p g1).2 eD g2).2 eW g3).1 = true ∧
      (enableAlarmW (enableAlarmD (setCycleTimer w p g1).2 eD g2).2 eW g3).2.regs REG_CTRL1
        &&& 0x07 = p.toNat) := by
  obtain ⟨d1, d2, _⟩ := enableAlarmD_ok w e g hw
  obtain ⟨w1, w2, _⟩ := enableAlarmW_ok w e g hw
  obtain ⟨s1, s2, s3⟩ := setCycleTimer_ok w p g1 hw
  obtain ⟨t1, t2, t3⟩ := enableAlarmD_ok (setCycleTimer w p g1).2 eD g2 s3
  obtain ⟨u1, u2, _⟩ := enableAlarmW_ok (enableAlarmD (setCycleTimer w p g1).2 eD g2).2 eW g3 t3
  have high : ∀ i, 8 ≤ i → ∀ x, (x % 256).testBit i = false := fun i hi x =>
    testBit_byte_high _ i (Nat.mod_lt _ (by norm_num)) hi
  refine ⟨⟨d1, ?_⟩, ⟨w1, ?_⟩, s1, t1, u1, ?_⟩
  · intro i
    rw [d2, hc, Function.update_same]
    by_cases hi : i < 8
    · obtain ⟨b1, b2, _, _⟩ := enable_bits c hb i hi
      cases e
      · simpa using b2
      · simpa using b1
    · have h6 : i ≠ 6 := by omega
      rw [high i (by omega), if_neg h6, testBit_byte_high c i hb (by omega)]
  · intro i
    rw [w2, hc, Function.update_same]
    by_cases hi : i < 8
    · obtain ⟨_, _, b3, b4⟩ := enable_bits c hb i hi
      cases e
      · simpa using b4
      · simpa using b3
    · have h7 : i ≠ 7 := by omega
      rw [high i (by omega), if_neg h7, testBit_byte_high c i hb (by omega)]
  · rw [u2, Function.update_same, t2, Function.update_same, s2, Function.update_same, hc]
    have k0 := cycle_low3 c hb p.toNat p.toNat_lt
    have hx : ((c &&& 0xF8) ||| (p.toNat % 256)) % 256 < 256 := Nat.mod_lt _ (by norm_num)
    obtain ⟨a1, a2, _, _⟩ := enable_low3 _ hx
    have hy : ∀ eD : Bool, (if eD then (((c &&& 0xF8) ||| (p.toNat % 256)) % 256) ||| 0x40
        else andNot8 (((c &&& 0xF8) ||| (p.toNat % 256)) % 256) 0x40) % 256 &&& 0x07 = p.toNat := by
      intro b; cases b
      · simpa [a2] using k0
      · simpa [a1] using k0
    have hz : (if eD then (((c &&& 0xF8) ||| (p.toNat % 256)) % 256) ||| 0x40
        else andNot8 (((c &&& 0xF8) ||| (p.toNat % 256)) % 256) 0x40) % 256 < 256 :=
      Nat.mod_lt _ (by norm_num)
    obtain ⟨_, _, a3, a4⟩ := enable_low3 _ hz
    cases eW
    · simp only [Bool.false_eq_true, if_false]
      rw [a4]; exact hy eD
    · simp only [if_true]
      rw [a3]; exact hy eD

/-- C5 (the code at the failing input): every transaction is acknowledged but
the device delivers no byte to the Control1 read, and the uninitialised local
`ctrl1` holds 0. With Control1 = 0x25, `enableAlarmD(true)` reports success
and leaves Control1 = 0x40, and `enableAlarmW(true)` reports success and
leaves Control1 = 0x80: bits other than the enable bit are lost. With
Control1 = 0x20 and only the second read short, `setCycleTimer(CYCLE_1MIN_L)`
stores 0x25, then `enableAlarmD` and `enableAlarmW` both report success and
Control1 ends as 0xC0, whose low three bits read 0 and not 5; with both reads
delivered Control1 would be 0x65 after `enableAlarmD`. -/
theorem C5_enableAlarm_after_short_read :
    ((enableAlarmD (scriptedWire (fun _ => 0x25) (fun _ => 0) (fun _ => 1)) true 0).1 = true ∧
      (enableAlarmD (scriptedWire (fun _ => 0x25) (fun _ => 0) (fun _ => 1)) true 0).2.regs
        REG_CTRL1 = 0x40) ∧
    ((enableAlarmW (scriptedWire (fun _ => 0x25) (fun _ => 0) (fun _ => 1)) true 0).1 = true ∧
      (enableAlarmW (scriptedWire (fun _ => 0x25) (fun _ => 0) (fun _ => 1)) true 0).2.regs
        REG_CTRL1 = 0x80) ∧
    ((setCycleTimer (scriptedWire (fun _ => 0x20) (fun _ => 0) (fun n => if n = 1 then 1 else 0))
        CyclePeriod.CYCLE_1MIN_L 0).1 = true ∧
      (setCycleTimer (scriptedWire (fun _ => 0x20) (fun _ => 0)
        (fun n => if n = 1 then 1 else 0)) CyclePeriod.CYCLE_1MIN_L 0).2.regs REG_CTRL1
        = 0x25 ∧
      (enableAlarmD (setCycleTimer (scriptedWire (fun _ => 0x20) (fun _ => 0)
        (fun n => if n = 1 then 1 else 0)) CyclePeriod.CYCLE_1MIN_L 0).2 true 0).1 = true ∧
      (enableAlarmW (enableAlarmD (setCycleTimer (scriptedWire (fun _ => 0x20) (fun _ => 0)
        (fun n => if n = 1 then 1 else 0)) CyclePeriod.CYCLE_1MIN_L 0).2 true 0).2 true 0).1
        = true ∧
      (enableAlarmW (enableAlarmD (setCycleTimer (scriptedWire (fun _ => 0x20) (fun _ => 0)
        (fun n => if n = 1 then 1 else 0)) CyclePeriod.CYCLE_1MIN_L 0).2 true 0).2 true 0).2.regs
        REG_CTRL1 = 0xC0 ∧
      (0xC0 &&& 0x07 = 0 ∧ CyclePeriod.CYCLE_1MIN_L.toNat = 5) ∧
      (enableAlarmD (setCycleTimer (idealWire (fun _ => 0x20))
        CyclePeriod.CYCLE_1MIN_L 0).2 true 0).2.regs REG_CTRL1 = 0x65) := by
  decide

/-- C6: for every Control2 byte `c`, when all bus transactions succeed,
`clearAlarmDFlag` leaves Control2 equal to `c & ~0x01`, `clearAlarmWFlag`
leaves it equal to `c & ~0x02` and `clearCycleTimerFlag` leaves it equal to
`c & ~0x04`: each reports success, clears exactly its own trigger bit and
leaves every other bit (the other two trigger bits, the timer-enable bit and
the voltage-low bit among them) as it was. -/
theorem C6_clear_flag_isolation (w : TwoWire) (c s : Nat)
    (hw : w.AllSucceed) (hc : w.regs REG_CTRL2 = c) (hb : c < 256) :
    ((clearAlarmDFlag w s).1 = true ∧
      (clearAlarmDFlag w s).2.regs REG_CTRL2 = c &&& 0xFE ∧
      ∀ i, ((clearAlarmDFlag w s).2.regs REG_CTRL2).testBit i
        = if i = 0 then false else c.testBit i) ∧
    ((clearAlarmWFlag w s).1 = true ∧
      (clearAlarmWFlag w s).2.regs REG_CTRL2 = c &&& 0xFD ∧
      ∀ i, ((clearAlarmWFlag w s).2.regs REG_CTRL2).testBit i
        = if i = 1 then false else c.testBit i) ∧
    ((clearCycleTimerFlag w s).1 = true ∧
      (clearCycleTimerFlag w s).2.regs REG_CTRL2 = c &&& 0xFB ∧
      ∀ i, ((clearCycleTimerFlag w s).2.regs REG_CTRL2).testBit i
        = if i = 2 then false else c.testBit i) := by
  obtain ⟨⟨d1, d2⟩, ⟨w1, w2⟩, ⟨t1, t2⟩⟩ := clearFlags_ok w s hw
  obtain ⟨⟨v1, v2, v3⟩, bits⟩ := clear_bits c hb
  have high : ∀ m i, 8 ≤ i → (c &&& m).testBit i = false := fun m i hi =>
    testBit_byte_high _ i (lt_of_le_of_lt Nat.and_le_left hb) hi
  have e1 : (clearAlarmDFlag w s).2.regs REG_CTRL2 = c &&& 0xFE := by
    rw [d2, hc, Function.update_same, v1]
  have e2 : (clearAlarmWFlag w s).2.regs REG_CTRL2 = c &&& 0xFD := by
    rw [w2, hc, Function.update_same, v2]
  have e3 : (clearCycleTimerFlag w s).2.regs REG_CTRL2 = c &&& 0xFB := by
    rw [t2, hc, Function.update_same, v3]
  refine ⟨⟨d1, e1, ?_⟩, ⟨w1, e2, ?_⟩, t1, e3, ?_⟩
  · intro i
    rw [e1]
    by_cases hi : i < 8
    · exact (bits i hi).1
    · have h0 : i ≠ 0 := by omega
      rw [high _ i (by omega), if_neg h0, testBit_byte_high c i hb (by omega)]
  · intro i
    rw [e2]
    by_cases hi : i < 8
    · exact (bits i hi).2.1
    · have h1 : i ≠ 1 := by omega
      rw [high _ i (by omega), if_neg h1, testBit_byte_high c i hb (by omega)]
  · intro i
    rw [e3]
    by_cases hi : i < 8
    · exact (bits i hi).2.2
    · have h2 : i ≠ 2 := by omega
      rw [high _ i (by omega), if_neg h2, testBit_byte_high c i hb (by omega)]

theorem C6_clear_flag_isolation_witness :
    (idealWire (fun _ => 0xC7)).AllSucceed ∧
    (idealWire (fun _ => 0xC7)).regs REG_CTRL2 = 0xC7 ∧ 0xC7 < 256 ∧
    (clearAlarmDFlag (idealWire (fun _ => 0xC7)) 0).2.regs REG_CTRL2 = 0xC6 ∧
    (clearAlarmWFlag (idealWire (fun _ => 0xC7)) 0).2.regs REG_CTRL2 = 0xC5 ∧
    (clearCycleTimerFlag (idealWire (fun _ => 0xC7)) 0).2.regs REG_CTRL2 = 0xC3 :=
  ⟨idealWire_allSucceed _, rfl, by decide,
    (C6_clear_flag_isolation (idealWire (fun _ => 0xC7)) 0xC7 0
      (idealWire_allSucceed _) rfl (by decide)).1.2.1,
    (C6_clear_flag_isolation (idealWire (fun _ => 0xC7)) 0xC7 0
      (idealWire_allSucceed _) rfl (by decide)).2.1.2.1,
    (C6_clear_flag_isolation (idealWire (fun _ => 0xC7)) 0xC7 0
      (idealWire_allSucceed _) rfl (by decide)).2.2.2.1⟩

/-- C7: on a bus whose write transaction fails (and commits nothing),
`setAlarmW` returns failure and changes no register; and when the write-back
of `enableAlarmW` fails after its read was acknowledged, `enableAlarmW`
returns failure and Control1 holds the byte it held before the call, for
every initial register file and every enable value. -/
theorem C7_write_failure (w1 : TwoWire) (hour min weekMask : Nat)
    (hfail : w1.status w1.nEnd ≠ 0)
    (w2 : TwoWire) (e : Bool) (g : Nat)
    (hread : w2.status w2.nEnd = 0) (hwrite : w2.status (w2.nEnd + 1) ≠ 0) :
    (setAlarmW w1 hour min weekMask).1 = false ∧
    (setAlarmW w1 hour min weekMask).2.regs = w1.regs ∧
    (enableAlarmW w2 e g).1 = false ∧
    (enableAlarmW w2 e g).2.regs REG_CTRL1 = w2.regs REG_CTRL1 := by
  obtain ⟨r1, r2, r3, _, r5⟩ := readRegs_frame w2 REG_CTRL1 (fun _ => g) 1
  refine ⟨by simp [setAlarmW, writeRegs_fail, hfail],
    by simp [setAlarmW, writeRegs_fail, hfail], ?_, ?_⟩
  · unfold enableAlarmW
    simp only [r1, hread]
    simp
    rw [(writeRegs_frame _ _ _ _).1, r3, r5]
    simp [hwrite]
  · unfold enableAlarmW
    simp only [r1, hread]
    simp
    rw [(writeRegs_frame _ _ _ _).2.2.2.2.2 (by rw [r3, r5]; exact hwrite), r2]

theorem C7_write_failure_witness :
    (scriptedWire (fun _ => 0x25) (fun _ => 2) (fun _ => 0)).status
        (scriptedWire (fun _ => 0x25) (fun _ => 2) (fun _ => 0)).nEnd ≠ 0 ∧
    (scriptedWire (fun _ => 0x25) (fun n => if n = 1 then 2 else 0) (fun _ => 0)).status
        (scriptedWire (fun _ => 0x25) (fun n => if n = 1 then 2 else 0) (fun _ => 0)).nEnd = 0 ∧
    (scriptedWire (fun _ => 0x25) (fun n => if n = 1 then 2 else 0) (fun _ => 0)).status
        ((scriptedWire (fun _ => 0x25) (fun n => if n = 1 then 2 else 0) (fun _ => 0)).nEnd + 1)
      ≠ 0 ∧
    (setAlarmW (scriptedWire (fun _ => 0x25) (fun _ => 2) (fun _ => 0)) 7 30 BIT_ALL).1
      = false ∧
    (setAlarmW (scriptedWire (fun _ => 0x25) (fun _ => 2) (fun _ => 0)) 7 30 BIT_ALL).2.regs
      = (scriptedWire (fun _ => 0x25) (fun _ => 2) (fun _ => 0)).regs ∧
    (enableAlarmW (scriptedWire (fun _ => 0x25) (fun n => if n = 1 then 2 else 0)
        (fun _ => 0)) true 0).1 = false ∧
    (enableAlarmW (scriptedWire (fun _ => 0x25) (fun n => if n = 1 then 2 else 0)
        (fun _ => 0)) true 0).2.regs REG_CTRL1
      = (scriptedWire (fun _ => 0x25) (fun n => if n = 1 then 2 else 0)
        (fun _ => 0)).regs REG_CTRL1 :=
  ⟨by decide, by decide, by decide,
    C7_write_failure (scriptedWire (fun _ => 0x25) (fun _ => 2) (fun _ => 0)) 7 30 BIT_ALL
      (by decide)
      (scriptedWire (fun _ => 0x25) (fun n => if n = 1 then 2 else 0) (fun _ => 0)) true 0
      (by decide) (by decide)⟩

/-- C8 (the code at the failing input): the read of Control2 fails (its
address phase is not acknowledged) and the following write succeeds. Control2
holds 0x47 and the uninitialised local of `readStatus2` holds 0. Each of the
three flag-clearing operations reports success and overwrites Control2 with
the stale local, so all three trigger flags and the timer-enable bit are
lost; `enableCycleTimer`, which checks the same read, reports failure and
leaves Control2 alone. -/
theorem C8_clearFlag_after_failed_read :
    (clearAlarmDFlag (scriptedWire (fun _ => 0x47) (fun n => if n = 0 then 2 else 0)
      (fun _ => 0)) 0).1 = true ∧
    (clearAlarmDFlag (scriptedWire (fun _ => 0x47) (fun n => if n = 0 then 2 else 0)
      (fun _ => 0)) 0).2.regs REG_CTRL2 = 0 ∧
    (clearAlarmWFlag (scriptedWire (fun _ => 0x47) (fun n => if n = 0 then 2 else 0)
      (fun _ => 0)) 0).1 = true ∧
    (clearAlarmWFlag (scriptedWire (fun _ => 0x47) (fun n => if n = 0 then 2 else 0)
      (fun _ => 0)) 0).2.regs REG_CTRL2 = 0 ∧
    (clearCycleTimerFlag (scriptedWire (fun _ => 0x47) (fun n => if n = 0 then 2 else 0)
      (fun _ => 0)) 0).1 = true ∧
    (clearCycleTimerFlag (scriptedWire (fun _ => 0x47) (fun n => if n = 0 then 2 else 0)
      (fun _ => 0)) 0).2.regs REG_CTRL2 = 0 ∧
    (enableCycleTimer (scriptedWire (fun _ => 0x47) (fun n => if n = 0 then 2 else 0)
      (fun _ => 0)) true 0).1 = false ∧
    (enableCycleTimer (scriptedWire (fun _ => 0x47) (fun n => if n = 0 then 2 else 0)
      (fun _ => 0)) true 0).2.regs REG_CTRL2 = 0x47 := by
  decide

/-- C9 (the code at the failing input): every transaction is acknowledged
but the device delivers no byte (`getTime`, `getDate`) or only two of three
bytes (`getTime`). The registers hold 0x12 and the uninitialised buffers hold
0x45. `getTime` and `getDate` report success and decode the stale buffer. -/
theorem C9_short_read_reports_success :
    (getTime (scriptedWire (fun _ => 0x12) (fun _ => 0) (fun _ => 3)) (fun _ => 0x45)).1
      = some (5, 45, 45) ∧
    (getTime (scriptedWire (fun _ => 0x12) (fun _ => 0) (fun _ => 1)) (fun _ => 0x45)).1
      = some (5, 12, 12) ∧
    (getDate (scriptedWire (fun _ => 0x12) (fun _ => 0) (fun _ => 4)) (fun _ => 0x45)).1
      = some (45, 5, 5, 5) := by
  decide

/-- C10: on a bus on which every transaction succeeds, for every year in
0..99, month in 1..12 and day in 1..31, `setDate` reports success and a
following `getDate` reports success with the same year, month and day and
with the weekday equal to `getWeekday(year, month, day)`, a value in 0..6. -/
theorem C10_setDate_getDate (w : TwoWire) (buf : Nat → Nat) (year month day : Nat)
    (hw : w.AllSucceed) (hy : year ≤ 99) (hm1 : 1 ≤ month) (hm2 : month ≤ 12)
    (hd1 : 1 ≤ day) (hd2 : day ≤ 31) :
    (setDate w year month day).1 = true ∧
    (getDate (setDate w year month day).2 buf).1
      = some (year, month, day, (getWeekday year month day).toNat) ∧
    0 ≤ getWeekday year month day ∧ getWeekday year month day ≤ 6 := by
  obtain ⟨h1, h2⟩ := hw
  obtain ⟨c1, c2, c3, c4⟩ := date_codec
  obtain ⟨g1, g2⟩ := getWeekday_range year month day
  have e1 := c1 year (by omega)
  have e2 := c2 month (by omega)
  have e3 := c3 day (by omega)
  have hu : toUInt8 (getWeekday year month day) = (getWeekday year month day).toNat := by
    unfold toUInt8
    rw [Int.emod_eq_of_lt g1 (by omega)]
  have e4 := c4 (getWeekday year month day).toNat (by omega)
  simp [setDate, getDate, REG_WEEK, writeRegs_ok, readRegs_ok4, h1, h2, burstWrite,
    e1, e2, e3, e4, hu, g1, g2]

theorem C10_setDate_getDate_witness :
    (idealWire (fun _ => 0)).AllSucceed ∧ 24 ≤ 99 ∧ 1 ≤ 2 ∧ 2 ≤ 12 ∧ 1 ≤ 29 ∧ 29 ≤ 31 ∧
    ((setDate (idealWire (fun _ => 0)) 24 2 29).1 = true ∧
      (getDate (setDate (idealWire (fun _ => 0)) 24 2 29).2 (fun _ => 0)).1
        = some (24, 2, 29,
            (getWeekday ((24 : Nat) : Int) ((2 : Nat) : Int) ((29 : Nat) : Int)).toNat) ∧
      0 ≤ getWeekday ((24 : Nat) : Int) ((2 : Nat) : Int) ((29 : Nat) : Int) ∧
      getWeekday ((24 : Nat) : Int) ((2 : Nat) : Int) ((29 : Nat) : Int) ≤ 6) :=
  ⟨idealWire_allSucceed _, by decide, by decide, by decide, by decide, by decide,
    C10_setDate_getDate (idealWire (fun _ => 0)) (fun _ => 0) 24 2 29
      (idealWire_allSucceed _) (by decide) (by decide) (by decide) (by decide) (by decide)⟩

/-! ## What the driver puts on the bus -/

/-- The loop of `readRegs` puts nothing on the bus. -/
theorem readLoop_sent (n : Nat) : ∀ (i : Nat) (w : TwoWire) (buf : Nat → Nat),
    (readLoop n i w buf).2.sent = w.sent := by
  induction n with
  | zero => intro i w buf; simp [readLoop]
  | succ n ih =>
    intro i w buf
    simp only [readLoop]
    split
    · rw [ih]
      unfold TwoWire.read
      split <;> simp
    · exact ih (i + 1) w buf

/-- `readRegs` puts exactly its command byte on the bus, whatever the outcome. -/
theorem readRegs_sent (w : TwoWire) (reg : Nat) (buf : Nat → Nat) (len : Nat) :
    (readRegs w reg buf len).2.2.sent = w.sent ++ [[swapAddressNibbles reg]] := by
  by_cases h : w.status w.nEnd = 0
  · simp [readRegs, TwoWire.endTransmission, TwoWire.write, TwoWire.beginTransmission, h,
      readLoop_sent, TwoWire.requestFrom, swapAddressNibbles_mod]
  · simp [readRegs_fail, h]

/-- `writeRegs` puts its command byte and the burst on the bus, whatever the
outcome. -/
theorem writeRegs_sent (w : TwoWire) (reg : Nat) (buf : List Nat) (len : Nat) :
    (writeRegs w reg buf len).2.sent =
      w.sent ++ [swapAddressNibbles reg :: (buf.take len).map (fun b => b % 256)] := by
  by_cases h : w.status w.nEnd = 0
  · simp [writeRegs, TwoWire.endTransmission, TwoWire.write, TwoWire.beginTransmission, h,
      TwoWire.writeBuf, swapAddressNibbles_mod]
  · simp [writeRegs_fail, h]

/-- The BCD encoder returns a byte. -/
theorem dec2bcd_mod (v : Nat) : dec2bcd v % 256 = dec2bcd v := by
  unfold dec2bcd
  exact Nat.mod_mod _ _

/-- The cycle-select update of a byte: the stored value and its upper bits. -/
theorem cycle_bits : ∀ c < 256, ∀ p < 8,
    ((c &&& 0xF8) ||| (p % 256)) % 256 = (c &&& 0xF8) ||| p ∧
    ((c &&& 0xF8) ||| p) < 256 ∧
    ((c &&& 0xF8) ||| p) &&& 0x07 = p ∧
    ∀ i < 8, 3 ≤ i → ((c &&& 0xF8) ||| p).testBit i = c.testBit i := by
  decide!

/-- The trigger and voltage tests of the flag queries read the named bits. -/
theorem flag_bits : ∀ c < 256,
    ((c &&& 0x01 != 0) = c.testBit 0) ∧ ((c &&& 0x02 != 0) = c.testBit 1) ∧
    ((c &&& 0x04 != 0) = c.testBit 2) ∧ ((c &&& 0x80 != 0) = c.testBit 7) := by
  decide!

/-- The alarm fields `setAlarmD` encodes leave bit 7 of the byte clear. -/
theorem alarm_codec : ∀ v < 60, (dec2bcd v).testBit 7 = false := by
  decide!

/-- `enableCycleTimer` on a bus that never fails. -/
theorem enableCycleTimer_ok (w : TwoWire) (e : Bool) (g : Nat) (hw : w.AllSucceed) :
    (enableCycleTimer w e g).1 = true ∧
    (enableCycleTimer w e g).2.regs = Function.update w.regs REG_CTRL2
      ((if e then w.regs REG_CTRL2 ||| 0x40 else andNot8 (w.regs REG_CTRL2) 0x40) % 256) := by
  obtain ⟨h1, h2⟩ := hw
  simp [enableCycleTimer, REG_CTRL2, readRegs_ok1, writeRegs_ok, h1, h2, burstWrite]

/-- The nibbles of the BCD encoding, and the decoder without overflow. -/
theorem bcd_nibbles : (∀ v < 100,
      dec2bcd v >>> 4 = v / 10 ∧ dec2bcd v &&& 0x0F = v % 10 ∧
      dec2bcd v >>> 4 ≤ 9 ∧ dec2bcd v &&& 0x0F ≤ 9) ∧
    (∀ b < 256, bcd2dec b = (b >>> 4) * 10 + (b &&& 0x0F) ∧
      (b >>> 4) * 10 + (b &&& 0x0F) < 256) := by
  decide!

/-- The command byte of a mode 0 register. -/
theorem swap_mode0 : ∀ r < 16,
    swapAddressNibbles r = r <<< 4 ∧ swapAddressNibbles r &&& 0x0F = 0 := by
  decide

/-- The 8-bit BCD round trip over all bytes. -/
theorem bcd_roundtrip_byte : ∀ v < 256, (bcd2dec (dec2bcd v) = v ↔ v ≤ 159) := by
  decide!

/-! ## Claims, continued -/

/-- On a bus on which every transaction succeeds and every read delivers its
byte: for every initial Control1 byte `c` and each of the eight cycle modes
`p`, `setCycleTimer p` reports success and
leaves Control1 equal to `(c & 0xF8) | p`: bits 0-2 read `p` and bits 3-7 (the
12/24h bit and both alarm-enable bits among them) are unchanged. -/
theorem setCycleTimer_field_allSucceed (w : TwoWire) (c : Nat) (p : CyclePeriod) (g : Nat)
    (hw : w.AllSucceed) (hc : w.regs REG_CTRL1 = c) (hb : c < 256) :
    (setCycleTimer w p g).1 = true ∧
    (setCycleTimer w p g).2.regs REG_CTRL1 = (c &&& 0xF8) ||| p.toNat ∧
    (setCycleTimer w p g).2.regs REG_CTRL1 &&& 0x07 = p.toNat ∧
    ∀ i, 3 ≤ i → ((setCycleTimer w p g).2.regs REG_CTRL1).testBit i = c.testBit i := by
  obtain ⟨s1, s2, _⟩ := setCycleTimer_ok w p g hw
  obtain ⟨b1, b2, b3, b4⟩ := cycle_bits c hb p.toNat p.toNat_lt
  have e : (setCycleTimer w p g).2.regs REG_CTRL1 = (c &&& 0xF8) ||| p.toNat := by
    rw [s2, hc, Function.update_same, b1]
  refine ⟨s1, e, by rw [e]; exact b3, ?_⟩
  intro i hi
  rw [e]
  by_cases h8 : i < 8
  · exact b4 i h8 hi
  · rw [testBit_byte_high _ i b2 (by omega), testBit_byte_high c i hb (by omega)]

/-- C11 (the code at the failing input): every transaction is acknowledged
but the device delivers no byte to the Control1 read, and the uninitialised
local `ctrl1` holds 0. With Control1 = 0xE3, `setCycleTimer(CYCLE_1S_L)`
reports success and leaves Control1 = 0x04: bits 3-7 are lost. With the byte
delivered Control1 would be 0xE4, and with the read not acknowledged the call
reports failure. -/
theorem C11_setCycleTimer_after_short_read :
    (setCycleTimer (scriptedWire (fun _ => 0xE3) (fun _ => 0) (fun _ => 1))
      CyclePeriod.CYCLE_1S_L 0).1 = true ∧
    (setCycleTimer (scriptedWire (fun _ => 0xE3) (fun _ => 0) (fun _ => 1))
      CyclePeriod.CYCLE_1S_L 0).2.regs REG_CTRL1 = 0x04 ∧
    (setCycleTimer (idealWire (fun _ => 0xE3)) CyclePeriod.CYCLE_1S_L 0).2.regs REG_CTRL1
      = 0xE4 ∧
    (setCycleTimer (scriptedWire (fun _ => 0xE3) (fun _ => 2) (fun _ => 0))
      CyclePeriod.CYCLE_1S_L 0).1 = false := by
  decide

/-- C13: for every bus state on which the Control2 read succeeds with byte
`c`, `alarmDFlag` returns bit 0 of `c`, `alarmWFlag` bit 1, `cycleTimerFlag`
bit 2 and `voltageLow` bit 7, and each of the four queries leaves every device
register unchanged. -/
theorem C13_flag_queries (w : TwoWire) (c s : Nat)
    (h0 : w.status w.nEnd = 0) (h1 : w.shortfall w.nReq = 0)
    (hc : w.regs REG_CTRL2 = c) (hb : c < 256) :
    ((alarmDFlag w s).1 = c.testBit 0 ∧ (alarmDFlag w s).2.regs = w.regs) ∧
    ((alarmWFlag w s).1 = c.testBit 1 ∧ (alarmWFlag w s).2.regs = w.regs) ∧
    ((cycleTimerFlag w s).1 = c.testBit 2 ∧ (cycleTimerFlag w s).2.regs = w.regs) ∧
    ((voltageLow w s).1 = c.testBit 7 ∧ (voltageLow w s).2.regs = w.regs) := by
  obtain ⟨f0, f1, f2, f7⟩ := flag_bits c hb
  have hr : readStatus2 w s = (c, (readRegs w REG_CTRL2 (fun _ => s) 1).2.2) := by
    unfold readStatus2
    rw [readRegs_ok1 w REG_CTRL2 _ h0 h1 (by decide)]
    simp [hc]
  have hf := (readRegs_frame w REG_CTRL2 (fun _ => s) 1).2.1
  simp only [alarmDFlag, alarmWFlag, cycleTimerFlag, voltageLow, hr, hf]
  exact ⟨⟨f0, trivial⟩, ⟨f1, trivial⟩, ⟨f2, trivial⟩, ⟨f7, trivial⟩⟩

theorem C13_flag_queries_witness :
    (idealWire (fun _ => 0x85)).status (idealWire (fun _ => 0x85)).nEnd = 0 ∧
    (idealWire (fun _ => 0x85)).shortfall (idealWire (fun _ => 0x85)).nReq = 0 ∧
    (idealWire (fun _ => 0x85)).regs REG_CTRL2 = 0x85 ∧ 0x85 < 256 ∧
    (alarmDFlag (idealWire (fun _ => 0x85)) 0).1 = Nat.testBit 0x85 0 ∧
    (alarmWFlag (idealWire (fun _ => 0x85)) 0).1 = Nat.testBit 0x85 1 :=
  ⟨rfl, rfl, rfl, by decide,
    (C13_flag_queries (idealWire (fun _ => 0x85)) 0x85 0 rfl rfl rfl (by decide)).1.1,
    (C13_flag_queries (idealWire (fun _ => 0x85)) 0x85 0 rfl rfl rfl (by decide)).2.1.1⟩

/-- C14: for every hour in 0..23 and minute in 0..59, `setAlarmD` issues one
transaction, a 2-byte burst starting at register 0x0B (command byte 0xB0)
whose payload is `[dec2bcd min, dec2bcd hour]`; both payload bytes have bit 7
(the per-field alarm-disable bit) equal to 0; when the transaction succeeds
registers 0x0B and 0x0C hold the payload. -/
theorem C14_setAlarmD_burst (w : TwoWire) (hour min : Nat)
    (hh : hour ≤ 23) (hm : min ≤ 59) :
    (setAlarmD w hour min).2.sent = w.sent ++ [[0xB0, dec2bcd min, dec2bcd hour]] ∧
    (setAlarmD w hour min).2.nEnd = w.nEnd + 1 ∧
    0xB0 >>> 4 = REG_ALM_D_MIN ∧
    (dec2bcd min).testBit 7 = false ∧ (dec2bcd hour).testBit 7 = false ∧
    (w.status w.nEnd = 0 →
      (setAlarmD w hour min).1 = true ∧
      (setAlarmD w hour min).2.regs =
        Function.update (Function.update w.regs 0x0B (dec2bcd min)) 0x0C (dec2bcd hour)) := by
  have cmd : swapAddressNibbles REG_ALM_D_MIN = 0xB0 := by decide
  refine ⟨?_, ?_, by decide, alarm_codec min (by omega), alarm_codec hour (by omega), ?_⟩
  · unfold setAlarmD
    rw [writeRegs_sent, cmd]
    simp [dec2bcd_mod]
  · unfold setAlarmD
    exact (writeRegs_frame _ _ _ _).2.2.2.1
  · intro hok
    unfold setAlarmD
    rw [writeRegs_ok _ _ _ _ hok (by decide)]
    simp [burstWrite, dec2bcd_mod, REG_ALM_D_MIN]

theorem C14_setAlarmD_burst_witness :
    7 ≤ 23 ∧ 30 ≤ 59 ∧
    (setAlarmD (idealWire (fun _ => 0)) 7 30).2.sent
      = (idealWire (fun _ => 0)).sent ++ [[0xB0, dec2bcd 30, dec2bcd 7]] :=
  ⟨by decide, by decide,
    (C14_setAlarmD_burst (idealWire (fun _ => 0)) 7 30 (by decide) (by decide)).1⟩

/-- C15: the weekly-alarm mask gives weekday `w` (0 = Sunday .. 6 = Saturday)
the bit `1 << w`; `BIT_ALL` is the union of the seven day bits, 0x7F; and
`setAlarmW` with the default mask `BIT_ALL` issues the 3-byte burst
`[dec2bcd min, dec2bcd hour, 0x7F]` starting at register 0x08 (command byte
0x80), which the device stores in registers 0x08..0x0A when the transaction
succeeds. -/
theorem C15_weekday_mask (w : TwoWire) (hour min : Nat) :
    (BIT_SUN = 1 <<< Weekday.W_SUN.toNat ∧ BIT_MON = 1 <<< Weekday.W_MON.toNat ∧
      BIT_TUE = 1 <<< Weekday.W_TUE.toNat ∧ BIT_WED = 1 <<< Weekday.W_WED.toNat ∧
      BIT_THU = 1 <<< Weekday.W_THU.toNat ∧ BIT_FRI = 1 <<< Weekday.W_FRI.toNat ∧
      BIT_SAT = 1 <<< Weekday.W_SAT.toNat) ∧
    (Weekday.W_SUN.toNat = 0 ∧ Weekday.W_SAT.toNat = 6) ∧
    BIT_ALL = (BIT_SUN ||| BIT_MON ||| BIT_TUE ||| BIT_WED ||| BIT_THU ||| BIT_FRI ||| BIT_SAT) ∧
    BIT_ALL = 0x7F ∧
    (setAlarmW w hour min BIT_ALL).2.sent
      = w.sent ++ [[0x80, dec2bcd min, dec2bcd hour, 0x7F]] ∧
    0x80 >>> 4 = REG_ALM_W_MIN ∧
    (w.status w.nEnd = 0 →
      (setAlarmW w hour min BIT_ALL).1 = true ∧
      (setAlarmW w hour min BIT_ALL).2.regs =
        Function.update (Function.update (Function.update w.regs 0x08 (dec2bcd min))
          0x09 (dec2bcd hour)) 0x0A 0x7F) := by
  have cmd : swapAddressNibbles REG_ALM_W_MIN = 0x80 := by decide
  refine ⟨by decide, by decide, by decide, by decide, ?_, by decide, ?_⟩
  · unfold setAlarmW
    rw [writeRegs_sent, cmd]
    simp [dec2bcd_mod, BIT_ALL]
  · intro hok
    unfold setAlarmW
    rw [writeRegs_ok _ _ _ _ hok (by decide)]
    simp [burstWrite, dec2bcd_mod, REG_ALM_W_MIN, BIT_ALL]

/-- On a bus on which every transaction succeeds and every read delivers its
byte: for every initial Control2 byte `c` and every boolean `e`,
`enableCycleTimer e` reports success and leaves
Control2 equal to `c` with only bit 6 replaced by `e`: the three trigger
flags (bits 0-2) and the voltage-low flag (bit 7) are written back as read;
Control1 and every other register are untouched. -/
theorem enableCycleTimer_isolation_allSucceed (w : TwoWire) (c : Nat) (e : Bool) (g : Nat)
    (hw : w.AllSucceed) (hc : w.regs REG_CTRL2 = c) (hb : c < 256) :
    (enableCycleTimer w e g).1 = true ∧
    (∀ i, ((enableCycleTimer w e g).2.regs REG_CTRL2).testBit i
      = if i = 6 then e else c.testBit i) ∧
    (enableCycleTimer w e g).2.regs REG_CTRL1 = w.regs REG_CTRL1 ∧
    (∀ r, r ≠ REG_CTRL2 → (enableCycleTimer w e g).2.regs r = w.regs r) := by
  obtain ⟨d1, d2⟩ := enableCycleTimer_ok w e g hw
  have high : ∀ i, 8 ≤ i → ∀ x, (x % 256).testBit i = false := fun i hi x =>
    testBit_byte_high _ i (Nat.mod_lt _ (by norm_num)) hi
  refine ⟨d1, ?_, ?_, ?_⟩
  · intro i
    rw [d2, hc, Function.update_same]
    by_cases hi : i < 8
    · obtain ⟨b1, b2, _, _⟩ := enable_bits c hb i hi
      cases e
      · simpa using b2
      · simpa using b1
    · have h6 : i ≠ 6 := by omega
      rw [high i (by omega), if_neg h6, testBit_byte_high c i hb (by omega)]
  · rw [d2, Function.update_noteq (by decide)]
  · intro r hr
    rw [d2, Function.update_noteq hr]

/-- C16 (the code at the failing input): every transaction is acknowledged
but the device delivers no byte to the Control2 read, and the uninitialised
local `ctrl2` holds 0. With Control2 = 0x87, `enableCycleTimer(true)` reports
success and leaves Control2 = 0x40: the three trigger flags and the
voltage-low flag are wiped. With the byte delivered Control2 would be 0xC7,
and with the read not acknowledged the call reports failure. -/
theorem C16_enableCycleTimer_after_short_read :
    (enableCycleTimer (scriptedWire (fun _ => 0x87) (fun _ => 0) (fun _ => 1)) true 0).1
      = true ∧
    (enableCycleTimer (scriptedWire (fun _ => 0x87) (fun _ => 0) (fun _ => 1)) true 0).2.regs
      REG_CTRL2 = 0x40 ∧
    (enableCycleTimer (idealWire (fun _ => 0x87)) true 0).2.regs REG_CTRL2 = 0xC7 ∧
    (enableCycleTimer (scriptedWire (fun _ => 0x87) (fun _ => 2) (fun _ => 0)) true 0).1
      = false := by
  decide

/-- C17: for every `v` in 0..99, `dec2bcd v` has high nibble `v / 10` and low
nibble `v % 10`, so both nibbles are at most 9; and for every byte `b`,
`bcd2dec b` is `(b >> 4) * 10 + (b & 0x0F)`, which fits in eight bits. -/
theorem C17_bcd_nibbles (v b : Nat) (hv : v ≤ 99) (hb : b < 256) :
    (dec2bcd v >>> 4 = v / 10 ∧ dec2bcd v &&& 0x0F = v % 10 ∧
      dec2bcd v >>> 4 ≤ 9 ∧ dec2bcd v &&& 0x0F ≤ 9) ∧
    (bcd2dec b = (b >>> 4) * 10 + (b &&& 0x0F) ∧ (b >>> 4) * 10 + (b &&& 0x0F) < 256) :=
  ⟨bcd_nibbles.1 v (by omega), bcd_nibbles.2 b hb⟩

theorem C17_bcd_nibbles_witness :
    59 ≤ 99 ∧ 0x59 < 256 ∧
    ((dec2bcd 59 >>> 4 = 59 / 10 ∧ dec2bcd 59 &&& 0x0F = 59 % 10 ∧
        dec2bcd 59 >>> 4 ≤ 9 ∧ dec2bcd 59 &&& 0x0F ≤ 9) ∧
      (bcd2dec 0x59 = (0x59 >>> 4) * 10 + (0x59 &&& 0x0F) ∧
        (0x59 >>> 4) * 10 + (0x59 &&& 0x0F) < 256)) :=
  ⟨by decide, by decide, C17_bcd_nibbles 59 0x59 (by decide) (by decide)⟩

/-- C18: for every mode 0 register address `r` in 0x00..0x0F, the command byte
that `readRegs` and `writeRegs` transmit first is `r << 4`: the register
address sits in the upper four bits and the lower four bits are zero; both
functions transmit the same command byte for the same register. -/
theorem C18_command_byte (w : TwoWire) (r : Nat) (hr : r ≤ 0x0F)
    (wbuf : List Nat) (rbuf : Nat → Nat) (len : Nat) :
    (writeRegs w r wbuf len).2.sent
      = w.sent ++ [(r <<< 4) :: (wbuf.take len).map (fun b => b % 256)] ∧
    (readRegs w r rbuf len).2.2.sent = w.sent ++ [[r <<< 4]] ∧
    (r <<< 4) >>> 4 = r ∧ (r <<< 4) &&& 0x0F = 0 ∧ r <<< 4 < 256 := by
  obtain ⟨s1, s2⟩ := swap_mode0 r (by omega)
  have s3 := swap_shift r (by omega)
  have s4 := swapAddressNibbles_mod r
  refine ⟨?_, ?_, ?_, ?_, ?_⟩
  · rw [writeRegs_sent, s1]
  · rw [readRegs_sent, s1]
  · rw [← s1]; exact s3
  · rw [← s1]; exact s2
  · rw [← s1, ← s4]; exact Nat.mod_lt _ (by norm_num)

theorem C18_command_byte_witness :
    0x0E ≤ 0x0F ∧
    (readRegs (idealWire (fun _ => 0)) 0x0E (fun _ => 0) 1).2.2.sent
      = (idealWire (fun _ => 0)).sent ++ [[0x0E <<< 4]] :=
  ⟨by decide,
    (C18_command_byte (idealWire (fun _ => 0)) 0x0E (by decide) [] (fun _ => 0) 1).2.1⟩

/-- C19: for every byte `v`, `bcd2dec (dec2bcd v) = v` if and only if
`v ≤ 159`; `dec2bcd 160` is 0x00; and for `v` in 160..255, on a bus on which
every transaction succeeds, `setTime`, `setDate`, `setAlarmD` and `setAlarmW`
report success while the register they store `v` in decodes to a different
value. -/
theorem C19_bcd_roundtrip_limit (v : Nat) (hv : v < 256)
    (w : TwoWire) (hw : w.AllSucceed) (a b mask : Nat) :
    (bcd2dec (dec2bcd v) = v ↔ v ≤ 159) ∧
    dec2bcd 160 = 0x00 ∧
    (160 ≤ v →
      ((setTime w a b v).1 = true ∧ bcd2dec ((setTime w a b v).2.regs REG_SEC) ≠ v) ∧
      ((setDate w v a b).1 = true ∧ bcd2dec ((setDate w v a b).2.regs REG_YEAR) ≠ v) ∧
      ((setAlarmD w a v).1 = true ∧
        bcd2dec ((setAlarmD w a v).2.regs REG_ALM_D_MIN) ≠ v) ∧
      ((setAlarmW w a v mask).1 = true ∧
        bcd2dec ((setAlarmW w a v mask).2.regs REG_ALM_W_MIN) ≠ v)) := by
  obtain ⟨h1, _⟩ := hw
  have hiff := bcd_roundtrip_byte v hv
  refine ⟨hiff, by decide, ?_⟩
  intro hbig
  have hne : bcd2dec (dec2bcd v) ≠ v := fun h => by
    have := hiff.mp h
    omega
  simp [setTime, setDate, setAlarmD, setAlarmW, writeRegs_ok, h1, burstWrite, dec2bcd_mod,
    REG_SEC, REG_WEEK, REG_YEAR, REG_ALM_D_MIN, REG_ALM_W_MIN, hne]

theorem C19_bcd_roundtrip_limit_witness :
    200 < 256 ∧ (idealWire (fun _ => 0)).AllSucceed ∧
    (bcd2dec (dec2bcd 200) = 200 ↔ 200 ≤ 159) :=
  ⟨by decide, idealWire_allSucceed _,
    (C19_bcd_roundtrip_limit 200 (by decide) (idealWire (fun _ => 0))
      (idealWire_allSucceed _) 0 0 0).1⟩

/-- C20: the burst writers touch disjoint register ranges and nothing else,
whether or not the transaction succeeds: `setTime` changes only registers
0x00-0x02, `setDate` only 0x03-0x06, `setAlarmW` only 0x08-0x0A, `setAlarmD`
only 0x0B-0x0C; none of them changes Control1 (0x0E) or Control2 (0x0F); and
on a bus on which every transaction succeeds `setDate` does not change what
`getTime` returns. -/
theorem C20_burst_frames (w : TwoWire) (a b c mask : Nat) (buf : Nat → Nat) :
    (∀ r, ¬ r ≤ 0x02 → (setTime w a b c).2.regs r = w.regs r) ∧
    (∀ r, ¬ (0x03 ≤ r ∧ r ≤ 0x06) → (setDate w a b c).2.regs r = w.regs r) ∧
    (∀ r, ¬ (0x08 ≤ r ∧ r ≤ 0x0A) → (setAlarmW w a b mask).2.regs r = w.regs r) ∧
    (∀ r, ¬ (0x0B ≤ r ∧ r ≤ 0x0C) → (setAlarmD w a b).2.regs r = w.regs r) ∧
    ((setTime w a b c).2.regs REG_CTRL1 = w.regs REG_CTRL1 ∧
      (setTime w a b c).2.regs REG_CTRL2 = w.regs REG_CTRL2 ∧
      (setDate w a b c).2.regs REG_CTRL1 = w.regs REG_CTRL1 ∧
      (setDate w a b c).2.regs REG_CTRL2 = w.regs REG_CTRL2 ∧
      (setAlarmW w a b mask).2.regs REG_CTRL1 = w.regs REG_CTRL1 ∧
      (setAlarmW w a b mask).2.regs REG_CTRL2 = w.regs REG_CTRL2 ∧
      (setAlarmD w a b).2.regs REG_CTRL1 = w.regs REG_CTRL1 ∧
      (setAlarmD w a b).2.regs REG_CTRL2 = w.regs REG_CTRL2) ∧
    (w.AllSucceed →
      (getTime (setDate w a b c).2 buf).1 = (getTime w buf).1) := by
  have t : ∀ r, ¬ r ≤ 0x02 → (setTime w a b c).2.regs r = w.regs r := by
    intro r hr
    by_cases h : w.status w.nEnd = 0
    · have h0 : r ≠ 0 := by omega
      have h1 : r ≠ 1 := by omega
      have h2 : r ≠ 2 := by omega
      simp [setTime, writeRegs_ok, h, burstWrite, REG_SEC, Function.update, h0, h1, h2]
    · simp [setTime, writeRegs_fail, h]
  have d : ∀ r, ¬ (0x03 ≤ r ∧ r ≤ 0x06) → (setDate w a b c).2.regs r = w.regs r := by
    intro r hr
    by_cases h : w.status w.nEnd = 0
    · have h3 : r ≠ 3 := by omega
      have h4 : r ≠ 4 := by omega
      have h5 : r ≠ 5 := by omega
      have h6 : r ≠ 6 := by omega
      simp [setDate, writeRegs_ok, h, burstWrite, REG_WEEK, Function.update, h3, h4, h5, h6]
    · simp [setDate, writeRegs_fail, h]
  have aw : ∀ r, ¬ (0x08 ≤ r ∧ r ≤ 0x0A) → (setAlarmW w a b mask).2.regs r = w.regs r := by
    intro r hr
    by_cases h : w.status w.nEnd = 0
    · have h3 : r ≠ 8 := by omega
      have h4 : r ≠ 9 := by omega
      have h5 : r ≠ 10 := by omega
      simp [setAlarmW, writeRegs_ok, h, burstWrite, REG_ALM_W_MIN, Function.update, h3, h4, h5]
    · simp [setAlarmW, writeRegs_fail, h]
  have ad : ∀ r, ¬ (0x0B ≤ r ∧ r ≤ 0x0C) → (setAlarmD w a b).2.regs r = w.regs r := by
    intro r hr
    by_cases h : w.status w.nEnd = 0
    · have h3 : r ≠ 11 := by omega
      have h4 : r ≠ 12 := by omega
      simp [setAlarmD, writeRegs_ok, h, burstWrite, REG_ALM_D_MIN, Function.update, h3, h4]
    · simp [setAlarmD, writeRegs_fail, h]
  refine ⟨t, d, aw, ad,
    ⟨t _ (by decide), t _ (by decide), d _ (by decide), d _ (by decide),
      aw _ (by decide), aw _ (by decide), ad _ (by decide), ad _ (by decide)⟩, ?_⟩
  intro hw
  obtain ⟨h1, h2⟩ := hw
  have e0 := d 0 (by omega)
  have e1 := d 1 (by omega)
  have e2 := d 2 (by omega)
  have f := writeRegs_frame w REG_WEEK
    [(toUInt8 (getWeekday a b c) &&& 0x07) % 256, dec2bcd c, dec2bcd b, dec2bcd a] 4
  have hs : (setDate w a b c).2.status = w.status := f.2.1
  have hf : (setDate w a b c).2.shortfall = w.shortfall := f.2.2.1
  unfold getTime
  rw [readRegs_ok3 _ REG_SEC buf (by rw [hs]; exact h1 _) (by rw [hf]; exact h2 _) (by decide),
    readRegs_ok3 w REG_SEC buf (h1 _) (h2 _) (by decide)]
  simp [REG_SEC, e0, e1, e2]

end RX8025RTC
